import Mathlib

/-!
# Verification of the OpenAI→Azure chat-completion proxy core

A shallow embedding of the request/response translation core of the
`openai-cloudflare-proxy` worker, together with theorems settling the
specification claims about it.

Modelling conventions:
* JavaScript numbers carried in request parameters are modelled as `ℚ`
  (only order comparisons and an integrality test are performed on them).
* Optional JSON fields are `Option` values; a field that is `none` is absent
  from the serialized payload.
* JavaScript's string-typed `x || y` defaulting (which treats both `undefined`
  and the empty string as falsy) is modelled by `jsOrS`.
* JS object maps (`Record<string, string>`, `Map`) are association lists with
  first-match lookup; JS property lookup compares keys exactly
  (case-sensitively).
* Nondeterministic effects (`crypto.randomUUID()`, `Date.now()`) are injected
  as explicit parameters.
* The upstream HTTP exchange is injected as an explicit outcome value: either
  a thrown JS exception or a received response.
-/

set_option autoImplicit false

/-- JavaScript `x || y` for an optional string `x`: `undefined` and the empty
string are falsy, so both fall back to `y`. -/
def jsOrS (x : Option String) (y : String) : String :=
  match x with
  | some s => if s = "" then y else s
  | none => y

/-- JS `String.prototype.toLowerCase()` (the model names and headers involved
are ASCII, where it agrees with `Char.toLower` applied character-wise). -/
def jsToLowerCase (s : String) : String := ⟨s.data.map Char.toLower⟩

instance {ε α : Type} [DecidableEq ε] [DecidableEq α] : DecidableEq (Except ε α) := fun x y =>
  match x, y with
  | .ok a, .ok b =>
      if h : a = b then isTrue (by rw [h]) else isFalse (fun hh => h (Except.ok.inj hh))
  | .ok _, .error _ => isFalse (fun hh => Except.noConfusion hh)
  | .error _, .ok _ => isFalse (fun hh => Except.noConfusion hh)
  | .error e, .error f =>
      if h : e = f then isTrue (by rw [h]) else isFalse (fun hh => h (Except.error.inj hh))

/-- A chat message `{ role, content }` as in `types.ts`. -/
structure ChatMessage where
  role : String
  content : String
  deriving DecidableEq, Repr

/-- `ChatCompletionRequest` from `types.ts`: the inbound client request body. -/
structure ChatCompletionRequest where
  model : Option String
  messages : List ChatMessage
  temperature : Option ℚ
  max_tokens : Option ℚ
  max_completion_tokens : Option ℚ
  top_p : Option ℚ
  stream : Option Bool
  deriving DecidableEq, Repr

/-- One element of the outbound `choices` array of `ChatCompletionResponse`. -/
structure Choice where
  index : Nat
  message : ChatMessage
  finish_reason : String
  deriving DecidableEq, Repr

/-- `ChatCompletionResponse` from `types.ts`: the outbound success envelope. -/
structure ChatCompletionResponse where
  id : String
  object : String
  created : Nat
  model : String
  choices : List Choice
  deriving DecidableEq, Repr

/-- The `error` object of `ErrorResponse` from `types.ts`. -/
structure ErrorBody where
  message : String
  type : String
  code : String
  deriving DecidableEq, Repr

/-- The JSON body of a gateway `Response`. -/
inductive ResponseBody where
  /-- an `ErrorResponse` envelope -/
  | error (e : ErrorBody)
  /-- a `ChatCompletionResponse` envelope -/
  | completion (c : ChatCompletionResponse)
  deriving DecidableEq, Repr

/-- An HTTP response produced by the gateway: status code plus JSON body. -/
structure GatewayResponse where
  status : Nat
  body : ResponseBody
  deriving DecidableEq, Repr

/-! ## Configuration (`config.ts`) -/

/-- The parts of `ProxyConfig` the translation core reads: the lower-cased
model-name → deployment-name mapping and the default model.  The mapping is an
association list with first-match lookup (JS object keys are unique, so the
distinction never matters on real configurations). -/
structure ProxyConfig where
  modelMappings : List (String × String)
  defaultModel : String
  deriving DecidableEq, Repr

/-- JS object property lookup `m[k]` on a string record: exact (case-sensitive)
key comparison, `undefined` when absent. -/
def lookupRecord (m : List (String × String)) (k : String) : Option String :=
  (m.find? (fun p => p.1 = k)).map (fun p => p.2)

/-- `isValidModel` from `config.ts`: `modelName.toLowerCase() in config.modelMappings`. -/
def isValidModel (modelName : String) (config : ProxyConfig) : Bool :=
  (lookupRecord config.modelMappings (jsToLowerCase modelName)).isSome

/-- `getDeploymentName` from `config.ts`:
`config.modelMappings[modelName.toLowerCase()] || modelName`. -/
def getDeploymentName (modelName : String) (config : ProxyConfig) : String :=
  jsOrS (lookupRecord config.modelMappings (jsToLowerCase modelName)) modelName

/-! ## Parameter validation and reshaping (worker entry file) -/

/-- The `{ valid, error? }` record returned by `validateParameters`. -/
structure ValidationResult where
  valid : Bool
  error : Option String
  deriving DecidableEq, Repr

/-- `Number.isInteger` on a JS number modelled as `ℚ`. -/
def jsIsInteger (q : ℚ) : Bool := q.den = 1

/-- `validateParameters` from the worker entry file: sequential checks on
`temperature`, `max_tokens`, `max_completion_tokens`, `top_p`; the first
failing check returns `{ valid := false }` with its message. -/
def validateParameters (r : ChatCompletionRequest) : ValidationResult :=
  if r.temperature.any (fun t => decide (t < 0) || decide (t > 2)) then
    { valid := false, error := some "temperature must be between 0 and 2" }
  else if r.max_tokens.any (fun n => !jsIsInteger n || decide (n ≤ 0)) then
    { valid := false, error := some "max_tokens must be a positive integer" }
  else if r.max_completion_tokens.any (fun n => !jsIsInteger n || decide (n ≤ 0)) then
    { valid := false, error := some "max_completion_tokens must be a positive integer" }
  else if r.top_p.any (fun p => decide (p < 0) || decide (p > 1)) then
    { valid := false, error := some "top_p must be between 0 and 1" }
  else
    { valid := true, error := none }

/-- `getTokenLimit` from the worker entry file: `max_tokens` if provided, else
`max_completion_tokens` if provided, else `undefined`. -/
def getTokenLimit (r : ChatCompletionRequest) : Option ℚ :=
  match r.max_tokens with
  | some m => some m
  | none =>
    match r.max_completion_tokens with
    | some m => some m
    | none => none

/-- The record returned by `stripUnsupportedParameters` in the worker entry
file. -/
structure StrippedParams where
  model : Option String
  messages : List ChatMessage
  temperature : Option ℚ
  max_tokens : Option ℚ
  top_p : Option ℚ
  stream : Option Bool
  deriving DecidableEq, Repr

/-- `stripUnsupportedParameters` from the worker entry file. -/
def stripUnsupportedParameters (r : ChatCompletionRequest) : StrippedParams :=
  { model := r.model
    messages := r.messages
    temperature := r.temperature
    max_tokens := getTokenLimit r
    top_p := r.top_p
    stream := r.stream }

/-- The JSON body posted to an upstream provider (both the Azure
`client.path("/chat/completions").post` body and the GitHub `fetch` body have
this shape). -/
structure UpstreamPayload where
  messages : List ChatMessage
  model : String
  temperature : Option ℚ
  max_tokens : Option ℚ
  top_p : Option ℚ
  stream : Bool
  deriving DecidableEq, Repr

/-- The outbound body built inside `handleAzureChatCompletion`:
messages re-mapped field-by-field, `model` set to the resolved deployment
name, `temperature`/`top_p` passed through, `max_tokens` from
`stripUnsupportedParameters`, `stream` the literal `false`. -/
def azurePayload (r : ChatCompletionRequest) (config : ProxyConfig) : UpstreamPayload :=
  { messages := r.messages.map (fun msg => { role := msg.role, content := msg.content })
    model := getDeploymentName (jsOrS r.model config.defaultModel) config
    temperature := r.temperature
    max_tokens := (stripUnsupportedParameters r).max_tokens
    top_p := r.top_p
    stream := false }

/-- The outbound body built inside `handleGitHubChatCompletion`:
`model` is `request.model || config.defaultModel` (the mapping is not
applied), the rest as on the Azure path. -/
def githubPayload (r : ChatCompletionRequest) (config : ProxyConfig) : UpstreamPayload :=
  { messages := r.messages
    model := jsOrS r.model config.defaultModel
    temperature := r.temperature
    max_tokens := (stripUnsupportedParameters r).max_tokens
    top_p := r.top_p
    stream := false }

/-! ## Error normalization and the dispatcher (worker entry file) -/

/-- A JavaScript value caught by a `catch` clause: either an `Error` instance
(carrying its `message`) or some non-`Error` thrown value. -/
inductive JsError where
  | error (message : String)
  | nonErrorValue
  deriving DecidableEq, Repr

/-- `handleError` from the worker entry file: every caught value becomes a
500 response with type `proxy_error` and code `internal_error`. -/
def handleError (e : JsError) : GatewayResponse :=
  { status := 500
    body := .error
      { message := match e with
          | .error m => m
          | .nonErrorValue => "An unknown error occurred"
        type := "proxy_error"
        code := "internal_error" } }

/-- The optional `error` object found in a JSON-decoded upstream error body
(`AzureErrorResponse` in the worker entry file); both fields optional. -/
structure AzureErrObj where
  code : Option String
  message : Option String
  deriving DecidableEq, Repr

/-- The result of reading a non-success upstream body as text and attempting
`JSON.parse` on it. -/
inductive ParsedOrRaw where
  /-- `JSON.parse` succeeded; `err` is the decoded value's optional `error`
  object (`parsedError.error`) -/
  | decoded (err : Option AzureErrObj)
  /-- `JSON.parse` threw; the raw body text is kept -/
  | undecodable (errorText : String)
  deriving DecidableEq, Repr

/-- The non-success branch of `handleAzureChatCompletion`
(`response.status !== "200"`): surface the decoded body's message/code with
JS `||` defaulting under the upstream's own status, or a 500 `parse_error`
carrying the raw text when the body does not decode. -/
def azureErrorNormalize (status : Nat) (body : ParsedOrRaw) : GatewayResponse :=
  match body with
  | .decoded err =>
      { status := status
        body := .error
          { message := jsOrS (err.bind (fun o => o.message)) "Azure AI request failed"
            type := "azure_error"
            code := jsOrS (err.bind (fun o => o.code)) "unknown_error" } }
  | .undecodable errorText =>
      { status := 500
        body := .error
          { message := "Azure AI request failed: " ++ errorText
            type := "azure_error"
            code := "parse_error" } }

/-- The `message` object of one upstream choice; `content` is optional at
runtime even though the TS interface declares it required — the code guards it
with `|| ''`. -/
structure UpstreamMessage where
  content : Option String
  deriving DecidableEq, Repr

/-- One element of the upstream success body's `choices` array. -/
structure UpstreamChoice where
  message : UpstreamMessage
  deriving DecidableEq, Repr

/-- The success branch of `handleAzureChatCompletion` /
`handleGitHubChatCompletion` before the surrounding `catch`:
`responseBody.choices[0].message.content` throws a `TypeError` when `choices`
is empty (`choices[0]` is `undefined`), otherwise the fixed single-choice
envelope is built.  The exact `TypeError` message text is runtime-specific. -/
def buildChatCompletionResponse (uuid : String) (now : Nat) (modelName : String)
    (choices : List UpstreamChoice) : Except JsError ChatCompletionResponse :=
  match choices with
  | [] => .error (.error "Cannot read properties of undefined (reading 'message')")
  | c :: _ => .ok
      { id := uuid
        object := "chat.completion"
        created := now
        model := modelName
        choices := [{ index := 0
                      message := { role := "assistant", content := jsOrS c.message.content "" }
                      finish_reason := "stop" }] }

/-- The success branch with the handler's `catch` applied: a throw inside the
envelope construction lands in `handleError`; otherwise the envelope is
returned with the `Response` default status 200. -/
def completionSuccessResponse (uuid : String) (now : Nat) (modelName : String)
    (choices : List UpstreamChoice) : GatewayResponse :=
  match buildChatCompletionResponse uuid now modelName choices with
  | .ok resp => { status := 200, body := .completion resp }
  | .error e => handleError e

/-- What the upstream HTTP exchange delivered for one Azure call.  The body of
a real HTTP response is raw bytes read differently on the two status branches;
the model carries both readings: `choices` is the `AzureApiResponse` reading
used when the status is 200, `errorBody` the text/`JSON.parse` reading used on
any other status. -/
structure AzureNetResponse where
  status : Nat
  choices : List UpstreamChoice
  errorBody : ParsedOrRaw
  deriving DecidableEq, Repr

/-- `handleAzureChatCompletion` from the worker entry file, with the upstream
exchange injected as `outcome` (a thrown exception or a received response) and
`crypto.randomUUID()` / `Date.now()` injected as `uuid` / `now`.  The
surrounding `try`/`catch` makes every thrown exception land in
`handleError`; the function is total, so no fault escapes to the HTTP layer. -/
def handleAzureChatCompletion (r : ChatCompletionRequest) (config : ProxyConfig)
    (outcome : Except JsError AzureNetResponse) (uuid : String) (now : Nat) :
    GatewayResponse :=
  let validation := validateParameters r
  if validation.valid = false then
    { status := 400
      body := .error
        { message := (validation.error).getD ""
          type := "invalid_request_error"
          code := "invalid_parameters" } }
  else
    match outcome with
    | .error e => handleError e
    | .ok resp =>
        if resp.status ≠ 200 then azureErrorNormalize resp.status resp.errorBody
        else completionSuccessResponse uuid now (jsOrS r.model config.defaultModel) resp.choices

/-- The observable first step of `handleChatCompletion`: either an immediate
rejection response, or the dispatch of an upstream Azure call carrying a
payload (no upstream call happens on the `reject` branch). -/
inductive HandlerStep where
  | reject (resp : GatewayResponse)
  | dispatchAzure (payload : UpstreamPayload)
  deriving DecidableEq, Repr

/-- `handleChatCompletion` from the worker entry file up to the upstream call:
resolve the model name (`request.model || config.defaultModel`), reject with
400 `model_not_found` when it is not in the mapping, then (inside
`handleAzureChatCompletion`) reject with 400 `invalid_parameters` when
validation fails, else dispatch the Azure call with the built payload. -/
def routeChatCompletion (r : ChatCompletionRequest) (config : ProxyConfig) : HandlerStep :=
  let modelName := jsOrS r.model config.defaultModel
  if isValidModel modelName config = false then
    .reject
      { status := 400
        body := .error
          { message := "Model " ++ modelName ++ " not supported"
            type := "invalid_request_error"
            code := "model_not_found" } }
  else
    let validation := validateParameters r
    if validation.valid = false then
      .reject
        { status := 400
          body := .error
            { message := (validation.error).getD ""
              type := "invalid_request_error"
              code := "invalid_parameters" } }
    else
      .dispatchAzure (azurePayload r config)

/-! ## Credential resolution (`KeyManager`) -/

/-- `CACHE_TTL` from `KeyManager`: 5 minutes in milliseconds. -/
def CACHE_TTL : Nat := 5 * 60 * 1000

/-- One value of the `KeyManager` cache map: `{ key, timestamp }`. -/
structure CacheEntry where
  key : String
  timestamp : Nat
  deriving DecidableEq, Repr

/-- The `KeyManager` cache (`Map<string, { key, timestamp }>`), as an
association list with first-match lookup. -/
abbrev KeyCache := List (String × CacheEntry)

/-- `Map.get`. -/
def cacheGet (cache : KeyCache) (k : String) : Option CacheEntry :=
  (cache.find? (fun p => p.1 = k)).map (fun p => p.2)

/-- `Map.delete`. -/
def cacheDelete (cache : KeyCache) (k : String) : KeyCache :=
  cache.filter (fun p => !(p.1 == k))

/-- `Map.set`: replaces any existing entry for the key. -/
def cacheSet (cache : KeyCache) (k : String) (e : CacheEntry) : KeyCache :=
  (k, e) :: cacheDelete cache k

/-- `KeyManager.getCachedKey`, with `Date.now()` injected as `now`: a hit
younger than `CACHE_TTL` is returned and the cache untouched; an expired entry
is deleted; returns the (possibly updated) cache alongside the result. -/
def getCachedKey (cache : KeyCache) (now : Nat) (cacheKey : String) :
    Option String × KeyCache :=
  match cacheGet cache cacheKey with
  | some cached =>
      if now - cached.timestamp < CACHE_TTL then (some cached.key, cache)
      else (none, cacheDelete cache cacheKey)
  | none => (none, cache)

/-- `KeyManager.isValidKey`: a non-empty string. -/
def isValidKey (key : String) : Bool := key.length > 0

/-- `KeyManager.validateKey`: only the basic `isValidKey` check is performed
(no network round-trip). -/
def validateKey (key : String) : Bool := isValidKey key

/-- JS truthiness of a string-or-undefined value: non-empty string. -/
def jsTruthyS : Option String → Bool
  | some s => s != ""
  | none => false

/-- JS `\s` restricted to the characters that can occur in an HTTP header
value (space and horizontal tab). -/
def isJsSpace (c : Char) : Bool := c = ' ' || c = '\t'

/-- The regex `/^Bearer\s+(.+)$/i` applied to a header value, returning the
captured group.  `Bearer` is matched case-insensitively; then at least one
whitespace character; the greedy `\s+` leaves the rest to `(.+)` — when the
remainder is whitespace only, backtracking makes `(.+)` capture the final
whitespace character (header values contain no line terminators, so `.`
matches every remaining character). -/
def bearerMatch (h : String) : Option String :=
  let cs := h.data
  if (cs.take 6).map Char.toLower = "bearer".data then
    let rest := cs.drop 6
    let w := (rest.takeWhile isJsSpace).length
    if w = 0 then none
    else if w < rest.length then some ⟨rest.drop w⟩
    else if 2 ≤ w then some ⟨rest.drop (w - 1)⟩
    else none
  else none

/-- The `ApiKeyError` thrown when no credential source matches. -/
inductive ApiKeyError where
  | apiKeyError (message : String)
  deriving DecidableEq, Repr

/-- Priority 3 of `KeyManager.getAzureKey`: the `api-key` header
(`if (apiKey && await this.validateKey(apiKey))`), else throw. -/
def getAzureKeyFromApiKeyHeader (cache : KeyCache) (now : Nat)
    (apiKeyHeader : Option String) : Except ApiKeyError (String × KeyCache) :=
  match apiKeyHeader with
  | some apiKey =>
      if apiKey != "" && validateKey apiKey then
        .ok (apiKey, cacheSet cache "azure" { key := apiKey, timestamp := now })
      else .error (.apiKeyError "Missing or invalid Azure API key")
  | none => .error (.apiKeyError "Missing or invalid Azure API key")

/-- Priority 2 of `KeyManager.getAzureKey`: the `Authorization` header matched
against the Bearer pattern (a captured token is never empty, so `validateKey`
always passes on it), falling through to priority 3 otherwise. -/
def getAzureKeyFromAuthHeader (cache : KeyCache) (now : Nat)
    (authHeader apiKeyHeader : Option String) : Except ApiKeyError (String × KeyCache) :=
  match authHeader.bind bearerMatch with
  | some token =>
      if validateKey token then
        .ok (token, cacheSet cache "azure" { key := token, timestamp := now })
      else getAzureKeyFromApiKeyHeader cache now apiKeyHeader
  | none => getAzureKeyFromApiKeyHeader cache now apiKeyHeader

/-- `KeyManager.getAzureKey`, with the cache state, `Date.now()`, and the two
request headers injected.  Cache first; then priority 1 (the environment key,
truthy and `validateKey`-accepted), then priorities 2 and 3; a resolved key is
stored in the cache under the slot `"azure"`. -/
def getAzureKey (cache : KeyCache) (now : Nat) (envKey : Option String)
    (authHeader apiKeyHeader : Option String) : Except ApiKeyError (String × KeyCache) :=
  match getCachedKey cache now "azure" with
  | (some cachedKey, cache1) => .ok (cachedKey, cache1)
  | (none, cache1) =>
      if jsTruthyS envKey && validateKey (envKey.getD "") then
        .ok (envKey.getD "", cacheSet cache1 "azure" { key := envKey.getD "", timestamp := now })
      else getAzureKeyFromAuthHeader cache1 now authHeader apiKeyHeader

/-! ## The model registry (`models.ts`) and `handleModels` -/

/-- `ModelCapabilities` from `types.ts`. -/
structure ModelCapabilities where
  contextWindow : Nat
  maxTokens : Nat
  supportsFunctions : Bool
  supportsVision : Bool
  deriving DecidableEq, Repr

/-- A registry value as read at the `handleModels` use site: `provider` and
`deploymentName` are `Option` because the inline fallback object carries
neither field. -/
structure ModelInfoView where
  provider : Option String
  deploymentName : Option String
  capabilities : ModelCapabilities
  deriving DecidableEq, Repr

/-- The compiled-in `modelMappings` table of `models.ts` (imported as
`modelCapabilities` by the worker entry file), with its three entries
verbatim. -/
def modelCapabilitiesTable : List (String × ModelInfoView) :=
  [ ("gpt-4",
      { provider := some "azure", deploymentName := some "gpt-4"
        capabilities := { contextWindow := 8192, maxTokens := 4096
                          supportsFunctions := true, supportsVision := false } })
  , ("gpt-4-turbo",
      { provider := some "azure", deploymentName := some "gpt-4-turbo"
        capabilities := { contextWindow := 128000, maxTokens := 4096
                          supportsFunctions := true, supportsVision := true } })
  , ("DeepSeek-R1",
      { provider := some "github", deploymentName := none
        capabilities := { contextWindow := 32768, maxTokens := 8192
                          supportsFunctions := true, supportsVision := false } }) ]

/-- The inline fallback object of `handleModels`
(`{ capabilities: { contextWindow: 8192, maxTokens: 4096, ... } }`). -/
def fallbackModelInfo : ModelInfoView :=
  { provider := none, deploymentName := none
    capabilities := { contextWindow := 8192, maxTokens := 4096
                      supportsFunctions := false, supportsVision := false } }

/-- JS property lookup `modelCapabilities[id]`: exact (case-sensitive) key
comparison. -/
def lookupModelInfo (m : List (String × ModelInfoView)) (k : String) :
    Option ModelInfoView :=
  (m.find? (fun p => p.1 = k)).map (fun p => p.2)

/-- One element of the `data` array returned by `handleModels`.  The constant
fields `permission: []` and `parent: null` are omitted from the model. -/
structure ModelListEntry where
  id : String
  object : String
  created : Nat
  owned_by : String
  root : String
  context_window : Nat
  max_tokens : Nat
  deriving DecidableEq, Repr

/-- The `data` array built by `handleModels` (with `Date.now()` injected):
one entry per entry of `config.modelMappings`, capabilities looked up by the
mapping key with the fallback object when absent, `owned_by` defaulting to
`"azure"`. -/
def handleModelsEntries (config : ProxyConfig) (now : Nat) : List ModelListEntry :=
  config.modelMappings.map (fun p =>
    let capabilities := (lookupModelInfo modelCapabilitiesTable p.1).getD fallbackModelInfo
    { id := p.1
      object := "model"
      created := now
      owned_by := jsOrS capabilities.provider "azure"
      root := p.1
      context_window := capabilities.capabilities.contextWindow
      max_tokens := capabilities.capabilities.maxTokens })

/-- The specification's registry lookup, written from the spec's words for
comparison with the code's lookup: "Lookup is case-insensitive against a fixed
compiled-in table". -/
def specRegistryLookupCI (name : String) : Option ModelInfoView :=
  (modelCapabilitiesTable.find?
    (fun p => jsToLowerCase p.1 = jsToLowerCase name)).map (fun p => p.2)

/-! ## Sample configurations and requests used by witnesses -/

/-- A configuration mapping `gpt-4` to a differently named deployment. -/
def cfgMapped : ProxyConfig :=
  { modelMappings := [("gpt-4", "my-azure-gpt4")], defaultModel := "DeepSeek-R1" }

/-- A request for `gpt-4` with no optional parameters set. -/
def reqGpt4 : ChatCompletionRequest :=
  { model := some "gpt-4", messages := [{ role := "user", content := "hi" }]
    temperature := none, max_tokens := none, max_completion_tokens := none
    top_p := none, stream := none }

/-- A request for a model that is not in `cfgMapped`'s mapping. -/
def reqNope : ChatCompletionRequest :=
  { model := some "nope", messages := [], temperature := none, max_tokens := none
    max_completion_tokens := none, top_p := none, stream := none }

/-- `reqGpt4` with both token-limit fields set (`max_tokens = 50`,
`max_completion_tokens = 100`). -/
def reqBothLimits : ChatCompletionRequest :=
  { reqGpt4 with max_tokens := some 50, max_completion_tokens := some 100 }

/-! ## Helper lemmas -/

theorem option_any_eq_false_iff {α : Type} (o : Option α) (f : α → Bool) :
    o.any f = false ↔ ∀ x ∈ o, f x = false := by
  cases o <;> simp [Option.any]

theorem jsIsInteger_iff (q : ℚ) : jsIsInteger q = true ↔ ∃ k : ℤ, q = (k : ℚ) := by
  unfold jsIsInteger
  rw [decide_eq_true_iff, Rat.den_eq_one_iff]
  constructor
  · intro h; exact ⟨q.num, h.symm⟩
  · rintro ⟨k, rfl⟩; rw [Rat.intCast_num]

theorem jsOrS_some_ne (s y : String) (h : s ≠ "") : jsOrS (some s) y = s := by
  simp [jsOrS, h]

/-! ## Claim C1: model admissibility -/

/-- C1: if the lower-cased request model name (or the default model when the
request omits one) is not a key of the configuration's model mapping, the
chat-completion handler rejects with HTTP 400, type `invalid_request_error`,
code `model_not_found`, and dispatches no upstream call; and admissibility is
case-insensitive: any mapping containing the key `"gpt-4"` admits the request
models `"GPT-4"`, `"Gpt-4"` and `"gpt-4"` identically. -/
theorem C1_model_admissibility (r : ChatCompletionRequest) (config : ProxyConfig)
    (h : lookupRecord config.modelMappings
      (jsToLowerCase (jsOrS r.model config.defaultModel)) = none) :
    routeChatCompletion r config = .reject
      { status := 400
        body := .error
          { message := "Model " ++ jsOrS r.model config.defaultModel ++ " not supported"
            type := "invalid_request_error"
            code := "model_not_found" } } ∧
    (∀ config2 : ProxyConfig, (lookupRecord config2.modelMappings "gpt-4").isSome →
      isValidModel "GPT-4" config2 = true ∧ isValidModel "Gpt-4" config2 = true ∧
        isValidModel "gpt-4" config2 = true) := by
  constructor
  · unfold routeChatCompletion
    simp only [isValidModel, h, Option.isSome_none]
    rfl
  · intro config2 h2
    have e1 : jsToLowerCase "GPT-4" = "gpt-4" := rfl
    have e2 : jsToLowerCase "Gpt-4" = "gpt-4" := rfl
    have e3 : jsToLowerCase "gpt-4" = "gpt-4" := rfl
    unfold isValidModel
    rw [e1, e2, e3]
    exact ⟨h2, h2, h2⟩

theorem C1_model_admissibility_witness :
    routeChatCompletion reqNope cfgMapped = .reject
      { status := 400
        body := .error
          { message := "Model nope not supported"
            type := "invalid_request_error"
            code := "model_not_found" } } ∧
    isValidModel "GPT-4" cfgMapped = true :=
  have h := C1_model_admissibility reqNope cfgMapped (by decide)
  ⟨h.1, (h.2 cfgMapped (by decide)).1⟩

/-! ## Claim C3: token-limit resolution -/

/-- C3: the token limit forwarded upstream (on both provider paths) is
`max_tokens` when present, else `max_completion_tokens` when present, and is
omitted when neither is present; in particular `max_tokens = 50` with
`max_completion_tokens = 100` yields 50. -/
theorem C3_token_limit (r : ChatCompletionRequest) (config : ProxyConfig) :
    (∀ v : ℚ, r.max_tokens = some v →
      (azurePayload r config).max_tokens = some v ∧
      (githubPayload r config).max_tokens = some v) ∧
    (r.max_tokens = none → ∀ w : ℚ, r.max_completion_tokens = some w →
      (azurePayload r config).max_tokens = some w ∧
      (githubPayload r config).max_tokens = some w) ∧
    (r.max_tokens = none → r.max_completion_tokens = none →
      (azurePayload r config).max_tokens = none ∧
      (githubPayload r config).max_tokens = none) := by
  refine ⟨fun v hv => ?_, fun h1 w hw => ?_, fun h1 h2 => ?_⟩ <;>
    simp [azurePayload, githubPayload, stripUnsupportedParameters, getTokenLimit, *]

theorem C3_token_limit_witness :
    reqBothLimits.max_tokens = some 50 ∧
    (azurePayload reqBothLimits cfgMapped).max_tokens = some 50 ∧
    (githubPayload reqBothLimits cfgMapped).max_tokens = some 50 :=
  have h := (C3_token_limit reqBothLimits cfgMapped).1 50 rfl
  ⟨rfl, h.1, h.2⟩

/-! ## Claim C5: upstream error normalization -/

/-- C5 counterexample: an upstream 429 whose body decodes to
`{"error":{"message":"","code":""}}` has both fields present (as the empty
string), yet the gateway substitutes both generic placeholders — the claim's
"defaulting only when absent" fails, because JS `||` also treats the empty
string as falsy. -/
theorem C5_empty_string_defaults_counterexample :
    azureErrorNormalize 429 (.decoded (some { code := some "", message := some "" }))
      = { status := 429
          body := .error
            { message := "Azure AI request failed", type := "azure_error"
              code := "unknown_error" } } ∧
    (some "" : Option String) ≠ none ∧ ("Azure AI request failed" : String) ≠ "" := by
  refine ⟨rfl, by decide, by decide⟩

/-- C5 (amended): on a non-success upstream status with a JSON-decodable body,
the gateway returns the upstream's own status with type `azure_error`, the
body's embedded message and code, defaulting to `"Azure AI request failed"` /
`"unknown_error"` when the field is absent **or the empty string**; the
concrete 429 example holds; and an undecodable body yields status 500, code
`parse_error`, with the raw body text carried in the message. -/
theorem C5_error_normalization (status : Nat) (err : Option AzureErrObj) (raw : String) :
    azureErrorNormalize status (.decoded err)
      = { status := status
          body := .error
            { message :=
                match err.bind (fun o => o.message) with
                | some s => if s = "" then "Azure AI request failed" else s
                | none => "Azure AI request failed"
              type := "azure_error"
              code :=
                match err.bind (fun o => o.code) with
                | some s => if s = "" then "unknown_error" else s
                | none => "unknown_error" } } ∧
    azureErrorNormalize 429
        (.decoded (some { code := some "rate_limit", message := some "rate limited" }))
      = { status := 429
          body := .error
            { message := "rate limited", type := "azure_error", code := "rate_limit" } } ∧
    azureErrorNormalize status (.undecodable raw)
      = { status := 500
          body := .error
            { message := "Azure AI request failed: " ++ raw, type := "azure_error"
              code := "parse_error" } } := by
  refine ⟨?_, rfl, rfl⟩
  cases err with
  | none => rfl
  | some o => cases o.message <;> cases o.code <;> rfl

/-! ## Claim C6: success envelope -/

/-- C6: on an upstream 200 whose body has a first choice, the gateway returns
a 200 `ChatCompletionResponse` with exactly one choice whose content is the
first upstream choice's content (empty string when the content field is
absent), role `assistant`, `finish_reason` always `"stop"`, the injected fresh
identifier and timestamp, and the request's model name (or the default)
echoed; longer upstream choice lists are truncated to their first element. -/
theorem C6_success_envelope (r : ChatCompletionRequest) (config : ProxyConfig)
    (uuid : String) (now : Nat) (c : UpstreamChoice) (rest : List UpstreamChoice)
    (eb : ParsedOrRaw) (hv : (validateParameters r).valid = true) :
    handleAzureChatCompletion r config
        (.ok { status := 200, choices := c :: rest, errorBody := eb }) uuid now
      = { status := 200
          body := .completion
            { id := uuid
              object := "chat.completion"
              created := now
              model := jsOrS r.model config.defaultModel
              choices := [{ index := 0
                            message := { role := "assistant"
                                         content := c.message.content.getD "" }
                            finish_reason := "stop" }] } } := by
  have hc : jsOrS c.message.content "" = c.message.content.getD "" := by
    cases hm : c.message.content with
    | none => rfl
    | some s =>
        rcases eq_or_ne s "" with rfl | hs
        · rfl
        · simp [jsOrS, hs]
  simp [handleAzureChatCompletion, hv, completionSuccessResponse,
    buildChatCompletionResponse, hc]

theorem C6_success_envelope_witness :
    (validateParameters reqGpt4).valid = true ∧
    handleAzureChatCompletion reqGpt4 cfgMapped
        (.ok { status := 200
               choices := [{ message := { content := some "hello" } },
                           { message := { content := some "ignored" } }]
               errorBody := .decoded none }) "uuid-1" 1234
      = { status := 200
          body := .completion
            { id := "uuid-1"
              object := "chat.completion"
              created := 1234
              model := "gpt-4"
              choices := [{ index := 0
                            message := { role := "assistant", content := "hello" }
                            finish_reason := "stop" }] } } :=
  ⟨rfl, C6_success_envelope reqGpt4 cfgMapped "uuid-1" 1234
    { message := { content := some "hello" } } [{ message := { content := some "ignored" } }]
    (.decoded none) rfl⟩

/-! ## Claim C9: exceptions become the generic 500 envelope -/

/-- C9: any exception thrown during the upstream call or response handling is
caught by the handler and converted to a 500 response with type `proxy_error`
and code `internal_error`; the handler is a total function, so no fault
propagates unhandled to the HTTP layer. -/
theorem C9_exception_handling (r : ChatCompletionRequest) (config : ProxyConfig)
    (uuid : String) (now : Nat) (e : JsError)
    (hv : (validateParameters r).valid = true) :
    handleAzureChatCompletion r config (.error e) uuid now = handleError e ∧
    (handleAzureChatCompletion r config (.error e) uuid now).status = 500 ∧
    ∃ msg, (handleAzureChatCompletion r config (.error e) uuid now).body
      = .error { message := msg, type := "proxy_error", code := "internal_error" } := by
  have h1 : handleAzureChatCompletion r config (.error e) uuid now = handleError e := by
    simp [handleAzureChatCompletion, hv]
  refine ⟨h1, ?_, ?_⟩
  · rw [h1]; rfl
  · rw [h1]
    exact ⟨_, rfl⟩

theorem C9_exception_handling_witness :
    (validateParameters reqGpt4).valid = true ∧
    handleAzureChatCompletion reqGpt4 cfgMapped (.error (.error "fetch failed")) "u" 0
      = { status := 500
          body := .error
            { message := "fetch failed", type := "proxy_error", code := "internal_error" } } :=
  ⟨rfl, ((C9_exception_handling reqGpt4 cfgMapped "u" 0 (.error "fetch failed") rfl).1).trans rfl⟩

/-! ## Claim C10: empty upstream choices is an error, not a success -/

/-- C10: a success-status upstream body whose `choices` array is empty makes
the envelope construction throw; the catch converts it to a 500 with type
`proxy_error` and code `internal_error` (no success envelope is produced),
while the empty-string substitution applies only to a missing `content` field
on an existing first choice. -/
theorem C10_empty_choices (r : ChatCompletionRequest) (config : ProxyConfig)
    (uuid : String) (now : Nat) (eb : ParsedOrRaw)
    (hv : (validateParameters r).valid = true) :
    ((handleAzureChatCompletion r config
        (.ok { status := 200, choices := [], errorBody := eb }) uuid now).status = 500 ∧
      ∃ msg, (handleAzureChatCompletion r config
        (.ok { status := 200, choices := [], errorBody := eb }) uuid now).body
          = .error { message := msg, type := "proxy_error", code := "internal_error" }) ∧
    (∀ rest : List UpstreamChoice,
      handleAzureChatCompletion r config
          (.ok { status := 200, choices := { message := { content := none } } :: rest
                 errorBody := eb }) uuid now
        = { status := 200
            body := .completion
              { id := uuid
                object := "chat.completion"
                created := now
                model := jsOrS r.model config.defaultModel
                choices := [{ index := 0
                              message := { role := "assistant", content := "" }
                              finish_reason := "stop" }] } }) := by
  constructor
  · have h1 : handleAzureChatCompletion r config
        (.ok { status := 200, choices := [], errorBody := eb }) uuid now
        = handleError (.error "Cannot read properties of undefined (reading 'message')") := by
      simp [handleAzureChatCompletion, hv, completionSuccessResponse,
        buildChatCompletionResponse]
    rw [h1]
    exact ⟨rfl, _, rfl⟩
  · intro rest
    simp [handleAzureChatCompletion, hv, completionSuccessResponse,
      buildChatCompletionResponse, jsOrS]

theorem C10_empty_choices_witness :
    (validateParameters reqGpt4).valid = true ∧
    (handleAzureChatCompletion reqGpt4 cfgMapped
        (.ok { status := 200, choices := [], errorBody := .decoded none }) "u" 0).status = 500 :=
  ⟨rfl, ((C10_empty_choices reqGpt4 cfgMapped "u" 0 (.decoded none) rfl).1).1⟩

/-! ## Claim C2: outbound payload shape -/

/-- C2 counterexample: with a mapping sending `gpt-4` to the deployment
`my-azure-gpt4`, the GitHub-path payload carries the raw request model
`"gpt-4"`, not the resolved deployment identifier — so "the payload sent to
either provider carries the resolved deployment/model identifier from the
mapping" fails on the GitHub path (which never calls `getDeploymentName`). -/
theorem C2_github_model_counterexample :
    (githubPayload reqGpt4 cfgMapped).model = "gpt-4" ∧
    getDeploymentName (jsOrS reqGpt4.model cfgMapped.defaultModel) cfgMapped
      = "my-azure-gpt4" ∧
    (githubPayload reqGpt4 cfgMapped).model
      ≠ getDeploymentName (jsOrS reqGpt4.model cfgMapped.defaultModel) cfgMapped ∧
    (azurePayload reqGpt4 cfgMapped).model = "my-azure-gpt4" := by
  refine ⟨rfl, by decide, by decide, by decide⟩

/-- C2 (amended): both provider payloads carry the client's message sequence
unmodified, temperature and top_p passed through exactly, the resolved token
limit (absent when neither source field was given), and stream literally
`false` regardless of the client's stream flag; but only the Azure path
carries the mapping-resolved deployment identifier — the GitHub path carries
the client's model name (or the default model) without applying the
mapping. -/
theorem C2_payload_shape (r : ChatCompletionRequest) (config : ProxyConfig) :
    (azurePayload r config).model
      = getDeploymentName (jsOrS r.model config.defaultModel) config ∧
    (githubPayload r config).model = jsOrS r.model config.defaultModel ∧
    (azurePayload r config).messages = r.messages ∧
    (githubPayload r config).messages = r.messages ∧
    (azurePayload r config).temperature = r.temperature ∧
    (githubPayload r config).temperature = r.temperature ∧
    (azurePayload r config).top_p = r.top_p ∧
    (githubPayload r config).top_p = r.top_p ∧
    (azurePayload r config).max_tokens = getTokenLimit r ∧
    (githubPayload r config).max_tokens = getTokenLimit r ∧
    (r.max_tokens = none → r.max_completion_tokens = none →
      (azurePayload r config).max_tokens = none ∧
      (githubPayload r config).max_tokens = none) ∧
    (∀ b : Bool, r.stream = some b → (azurePayload r config).stream = false) ∧
    (githubPayload r config).stream = false := by
  have hmsg : r.messages.map
      (fun msg => ({ role := msg.role, content := msg.content } : ChatMessage))
      = r.messages := by
    have hid : (fun msg : ChatMessage =>
        ({ role := msg.role, content := msg.content } : ChatMessage)) = id :=
      funext fun _ => rfl
    rw [hid, List.map_id]
  refine ⟨rfl, rfl, hmsg, rfl, rfl, rfl, rfl, rfl, rfl, rfl, ?_, fun b _ => rfl, rfl⟩
  intro h1 h2
  constructor <;>
    simp [azurePayload, githubPayload, stripUnsupportedParameters, getTokenLimit, h1, h2]

theorem C2_payload_shape_witness :
    reqGpt4.max_tokens = none ∧ reqGpt4.max_completion_tokens = none ∧
    (azurePayload reqGpt4 cfgMapped).max_tokens = none ∧
    ({ reqGpt4 with stream := some true } : ChatCompletionRequest).stream = some true ∧
    (azurePayload { reqGpt4 with stream := some true } cfgMapped).stream = false := by
  refine ⟨rfl, rfl, ((C2_payload_shape reqGpt4 cfgMapped).2.2.2.2.2.2.2.2.2.2.1 rfl rfl).1,
    rfl, (C2_payload_shape { reqGpt4 with stream := some true } cfgMapped).2.2.2.2.2.2.2.2.2.2.2.1
      true rfl⟩

/-! ## Claim C4: parameter validation -/

theorem takeWhile_length_le {α : Type} (p : α → Bool) (l : List α) :
    (l.takeWhile p).length ≤ l.length := by
  induction l with
  | nil => simp
  | cons a as ih =>
      by_cases h : p a
      · simp [List.takeWhile_cons, h]
        omega
      · simp [List.takeWhile_cons, h]

theorem temp_range_ok_iff (t : ℚ) :
    (decide (t < 0) || decide (t > 2)) = false ↔ 0 ≤ t ∧ t ≤ 2 := by
  simp [not_lt]

theorem top_p_range_ok_iff (p : ℚ) :
    (decide (p < 0) || decide (p > 1)) = false ↔ 0 ≤ p ∧ p ≤ 1 := by
  simp [not_lt]

theorem pos_int_ok_iff (n : ℚ) :
    (!jsIsInteger n || decide (n ≤ 0)) = false ↔ (∃ k : ℤ, n = (k : ℚ)) ∧ 0 < n := by
  unfold jsIsInteger
  rw [Bool.or_eq_false_iff]
  simp only [Bool.not_eq_false', decide_eq_true_eq, decide_eq_false_iff_not, not_le]
  constructor
  · rintro ⟨h1, h2⟩
    exact ⟨⟨n.num, ((Rat.den_eq_one_iff n).mp h1).symm⟩, h2⟩
  · rintro ⟨⟨k, rfl⟩, h2⟩
    exact ⟨Rat.intCast_den k, h2⟩

/-- C4: validation accepts a request exactly when every present optional field
satisfies its rule — temperature a number in `[0, 2]` inclusive, top_p a
number in `[0, 1]` inclusive, max_tokens and max_completion_tokens positive
integers — with absent fields unconstrained; and a validation failure on an
admissible model is surfaced as a 400 rejection with type
`invalid_request_error` and code `invalid_parameters`. -/
theorem C4_parameter_validation (r : ChatCompletionRequest) :
    ((validateParameters r).valid = true ↔
      ((∀ t : ℚ, r.temperature = some t → 0 ≤ t ∧ t ≤ 2) ∧
       (∀ n : ℚ, r.max_tokens = some n → (∃ k : ℤ, n = (k : ℚ)) ∧ 0 < n) ∧
       (∀ n : ℚ, r.max_completion_tokens = some n → (∃ k : ℤ, n = (k : ℚ)) ∧ 0 < n) ∧
       (∀ p : ℚ, r.top_p = some p → 0 ≤ p ∧ p ≤ 1))) ∧
    ((validateParameters r).valid = false → ∀ config : ProxyConfig,
      isValidModel (jsOrS r.model config.defaultModel) config = true →
      ∃ msg, routeChatCompletion r config = .reject
        { status := 400
          body := .error
            { message := msg, type := "invalid_request_error"
              code := "invalid_parameters" } }) := by
  constructor
  · have key : (validateParameters r).valid = true ↔
        (r.temperature.any (fun t => decide (t < 0) || decide (t > 2)) = false ∧
         r.max_tokens.any (fun n => !jsIsInteger n || decide (n ≤ 0)) = false ∧
         r.max_completion_tokens.any (fun n => !jsIsInteger n || decide (n ≤ 0)) = false ∧
         r.top_p.any (fun p => decide (p < 0) || decide (p > 1)) = false) := by
      unfold validateParameters
      split_ifs with h1 h2 h3 h4 <;> simp_all
    rw [key, option_any_eq_false_iff, option_any_eq_false_iff,
      option_any_eq_false_iff, option_any_eq_false_iff]
    exact and_congr
      (forall_congr' fun t => imp_congr_right fun _ => temp_range_ok_iff t)
      (and_congr
        (forall_congr' fun n => imp_congr_right fun _ => pos_int_ok_iff n)
        (and_congr
          (forall_congr' fun n => imp_congr_right fun _ => pos_int_ok_iff n)
          (forall_congr' fun p => imp_congr_right fun _ => top_p_range_ok_iff p)))
  · intro hvf config hmodel
    exact ⟨(validateParameters r).error.getD "",
      by simp [routeChatCompletion, hmodel, hvf]⟩

/-- A request whose optional fields all sit exactly on their accepted
boundaries. -/
def reqBoundary : ChatCompletionRequest :=
  { reqGpt4 with temperature := some 2, top_p := some 1, max_tokens := some 1 }

theorem C4_parameter_validation_witness :
    (validateParameters reqBoundary).valid = true ∧
    routeChatCompletion ({ reqGpt4 with temperature := some 3 }) cfgMapped = .reject
      { status := 400
        body := .error
          { message := "temperature must be between 0 and 2"
            type := "invalid_request_error"
            code := "invalid_parameters" } } := by
  constructor
  · refine (C4_parameter_validation reqBoundary).1.mpr ⟨?_, ?_, ?_, ?_⟩
    · intro t ht
      have h2 : reqBoundary.temperature = some 2 := rfl
      rw [h2] at ht
      rw [← Option.some.inj ht]
      norm_num
    · intro n hn
      have h2 : reqBoundary.max_tokens = some 1 := rfl
      rw [h2] at hn
      rw [← Option.some.inj hn]
      exact ⟨⟨1, by norm_num⟩, by norm_num⟩
    · intro n hn
      have h2 : reqBoundary.max_completion_tokens = none := rfl
      rw [h2] at hn
      exact Option.noConfusion hn
    · intro p hp
      have h2 : reqBoundary.top_p = some 1 := rfl
      rw [h2] at hp
      rw [← Option.some.inj hp]
      norm_num
  · decide

/-! ## Claim C7: GET /v1/models capability lookup -/

/-- A configuration whose (lower-cased, as `parseModelMappings` ingests them)
mapping key names the secondary-provider model. -/
def cfgDeepseek : ProxyConfig :=
  { modelMappings := [("deepseek-r1", "DeepSeek-R1")], defaultModel := "DeepSeek-R1" }

/-- C7 counterexample: the registry access `modelCapabilities[id]` is a
case-sensitive JS property lookup on the mapping key, and config mapping keys
are lower-cased on ingestion, so the key `deepseek-r1` misses the table entry
`DeepSeek-R1` and the entry gets the fallback capabilities (context window
8192) — a case-insensitive lookup, as the claim states, would find the entry
and report 32768. -/
theorem C7_case_sensitive_lookup_counterexample :
    (handleModelsEntries cfgDeepseek 0).map (fun e => e.context_window) = [8192] ∧
    lookupModelInfo modelCapabilitiesTable "deepseek-r1" = none ∧
    (specRegistryLookupCI "deepseek-r1").map (fun i => i.capabilities.contextWindow)
      = some 32768 ∧
    (8192 : Nat) ≠ 32768 := by
  refine ⟨rfl, rfl, rfl, by decide⟩

/-- C7 (amended): `GET /v1/models` returns exactly one entry per key of the
configuration's model mapping; each entry's capability fields are drawn from
the compiled-in registry table by an exact, **case-sensitive** lookup of the
mapping key (not of the mapped deployment name), falling back to the
conservative default descriptor — context window 8192, max tokens 4096,
`owned_by` `"azure"` — whenever the key is not an exact key of the table; the
lookup never rejects an unknown name. -/
theorem C7_models_capabilities (config : ProxyConfig) (now : Nat) :
    (handleModelsEntries config now).length = config.modelMappings.length ∧
    ∀ i : Nat, ∀ key dep : String, config.modelMappings[i]? = some (key, dep) →
      ∃ e : ModelListEntry, (handleModelsEntries config now)[i]? = some e ∧
        e.id = key ∧ e.object = "model" ∧ e.created = now ∧ e.root = key ∧
        (lookupModelInfo modelCapabilitiesTable key = none →
          e.context_window = 8192 ∧ e.max_tokens = 4096 ∧ e.owned_by = "azure") ∧
        (∀ info : ModelInfoView, lookupModelInfo modelCapabilitiesTable key = some info →
          e.context_window = info.capabilities.contextWindow ∧
          e.max_tokens = info.capabilities.maxTokens ∧
          e.owned_by = jsOrS info.provider "azure") := by
  refine ⟨by simp [handleModelsEntries], ?_⟩
  intro i key dep h
  refine ⟨{ id := key
            object := "model"
            created := now
            owned_by := jsOrS
              ((lookupModelInfo modelCapabilitiesTable key).getD fallbackModelInfo).provider
              "azure"
            root := key
            context_window :=
              ((lookupModelInfo modelCapabilitiesTable key).getD
                fallbackModelInfo).capabilities.contextWindow
            max_tokens :=
              ((lookupModelInfo modelCapabilitiesTable key).getD
                fallbackModelInfo).capabilities.maxTokens },
    ?_, rfl, rfl, rfl, rfl, ?_, ?_⟩
  · simp [handleModelsEntries, List.getElem?_map, h]
  · intro hnone
    rw [hnone]
    exact ⟨rfl, rfl, rfl⟩
  · intro info hinfo
    rw [hinfo]
    exact ⟨rfl, rfl, rfl⟩

theorem C7_models_capabilities_witness :
    (handleModelsEntries cfgMapped 99).length = 1 ∧
    ((handleModelsEntries cfgMapped 99)[0]?).map
        (fun e => (e.id, e.context_window, e.max_tokens, e.owned_by))
      = some ("gpt-4", 8192, 4096, "azure") := by
  obtain ⟨e, he, hid, hobj, hcr, hrt, hnone, hsome⟩ :=
    (C7_models_capabilities cfgMapped 99).2 0 "gpt-4" "my-azure-gpt4" rfl
  obtain ⟨h1, h2, h3⟩ := hsome _ rfl
  refine ⟨(C7_models_capabilities cfgMapped 99).1.trans rfl, ?_⟩
  rw [he]
  simp [hid, h1, h2, h3, jsOrS]

/-! ## Claim C8: credential resolution order and cache -/

theorem string_mk_ne_empty (l : List Char) (hl : l ≠ []) : (⟨l⟩ : String) ≠ "" :=
  fun hE => hl (congrArg String.data hE)

theorem validateKey_eq_true (k : String) (h : k ≠ "") : validateKey k = true := by
  unfold validateKey isValidKey
  rw [decide_eq_true_iff]
  cases k with
  | mk l =>
      cases l with
      | nil => exact absurd rfl h
      | cons a as => simp [String.length]

theorem bearerMatch_ne_empty (h tok : String) (hb : bearerMatch h = some tok) :
    tok ≠ "" := by
  simp only [bearerMatch] at hb
  split_ifs at hb with h1 h2 h3 h4 <;>
  first
    | exact Option.noConfusion hb
    | · rw [← Option.some.inj hb]
        apply string_mk_ne_empty
        apply List.length_pos.mp
        rw [List.length_drop]
        have hle := takeWhile_length_le isJsSpace (h.data.drop 6)
        omega

theorem cacheGet_cacheDelete (cache : KeyCache) (k : String) :
    cacheGet (cacheDelete cache k) k = none := by
  induction cache with
  | nil => rfl
  | cons p rest ih =>
      by_cases hp : p.1 = k
      · simpa [cacheDelete, List.filter_cons, hp] using ih
      · simp only [cacheDelete, cacheGet, List.filter_cons, List.find?_cons, hp] at ih ⊢
        simp [hp, ih]

/-- C8: credential resolution for the `azure` slot.  A cache entry younger
than 5 minutes is returned as is, with no resolution performed (the result is
independent of the environment key and headers); an entry at least 5 minutes
old is evicted on the lookup.  On a cache miss, first match wins: (1) a
non-empty environment key, (2) the token of an `Authorization` header matching
the Bearer pattern case-insensitively, (3) a non-empty `api-key` header value;
when none matches, an `ApiKeyError` is thrown.  Every resolved key is stored
in the cache under the slot `"azure"`. -/
theorem C8_key_resolution (cache : KeyCache) (now : Nat)
    (envKey authHeader apiKeyHeader : Option String) :
    (∀ e : CacheEntry, cacheGet cache "azure" = some e → now - e.timestamp < CACHE_TTL →
      getAzureKey cache now envKey authHeader apiKeyHeader = .ok (e.key, cache)) ∧
    (∀ e : CacheEntry, cacheGet cache "azure" = some e → CACHE_TTL ≤ now - e.timestamp →
      getCachedKey cache now "azure" = (none, cacheDelete cache "azure") ∧
      cacheGet (cacheDelete cache "azure") "azure" = none) ∧
    (∀ cache2 : KeyCache, getCachedKey cache now "azure" = (none, cache2) →
      (∀ k : String, envKey = some k → k ≠ "" →
        getAzureKey cache now envKey authHeader apiKeyHeader
          = .ok (k, cacheSet cache2 "azure" { key := k, timestamp := now })) ∧
      (jsTruthyS envKey = false →
        (∀ ah tok : String, authHeader = some ah → bearerMatch ah = some tok →
          getAzureKey cache now envKey authHeader apiKeyHeader
            = .ok (tok, cacheSet cache2 "azure" { key := tok, timestamp := now })) ∧
        (authHeader.bind bearerMatch = none →
          (∀ k : String, apiKeyHeader = some k → k ≠ "" →
            getAzureKey cache now envKey authHeader apiKeyHeader
              = .ok (k, cacheSet cache2 "azure" { key := k, timestamp := now })) ∧
          ((apiKeyHeader = none ∨ apiKeyHeader = some "") →
            getAzureKey cache now envKey authHeader apiKeyHeader
              = .error (.apiKeyError "Missing or invalid Azure API key"))))) := by
  refine ⟨?_, ?_, ?_⟩
  · intro e he hlt
    have hck : getCachedKey cache now "azure" = (some e.key, cache) := by
      unfold getCachedKey
      rw [he]
      simp [hlt]
    unfold getAzureKey
    rw [hck]
  · intro e he hge
    refine ⟨?_, cacheGet_cacheDelete cache "azure"⟩
    unfold getCachedKey
    rw [he]
    simp [not_lt.mpr hge]
  · intro cache2 hpair
    refine ⟨?_, ?_⟩
    · intro k hk hkne
      unfold getAzureKey
      rw [hpair, hk]
      simp [jsTruthyS, hkne, validateKey_eq_true k hkne]
    · intro henvf
      have hred : getAzureKey cache now envKey authHeader apiKeyHeader
          = getAzureKeyFromAuthHeader cache2 now authHeader apiKeyHeader := by
        unfold getAzureKey
        rw [hpair]
        simp [henvf]
      refine ⟨?_, ?_⟩
      · intro ah tok hah htok
        rw [hred]
        simp [getAzureKeyFromAuthHeader, hah, htok,
          validateKey_eq_true tok (bearerMatch_ne_empty ah tok htok)]
      · intro hnb
        have hred2 : getAzureKeyFromAuthHeader cache2 now authHeader apiKeyHeader
            = getAzureKeyFromApiKeyHeader cache2 now apiKeyHeader := by
          unfold getAzureKeyFromAuthHeader
          rw [hnb]
        refine ⟨?_, ?_⟩
        · intro k hk hkne
          rw [hred, hred2]
          simp [getAzureKeyFromApiKeyHeader, hk, hkne, validateKey_eq_true k hkne]
        · intro hnone
          rw [hred, hred2]
          rcases hnone with hn | hn <;> simp [getAzureKeyFromApiKeyHeader, hn]

theorem C8_key_resolution_witness :
    cacheGet [("azure", { key := "k1", timestamp := 0 })] "azure"
      = some { key := "k1", timestamp := 0 } ∧
    1000 - 0 < CACHE_TTL ∧
    getAzureKey [("azure", { key := "k1", timestamp := 0 })] 1000 (some "envk")
        (some "Bearer tok") (some "hdr")
      = .ok ("k1", [("azure", { key := "k1", timestamp := 0 })]) :=
  ⟨rfl, by decide,
    (C8_key_resolution [("azure", { key := "k1", timestamp := 0 })] 1000 (some "envk")
        (some "Bearer tok") (some "hdr")).1
      { key := "k1", timestamp := 0 } rfl (by decide)⟩
